import Mathlib

/-!
# run-it-smoke-tests: the build-and-verify runner

A shallow embedding of `cicd/cmd/run-it-smoke-tests/main.go`.  The program is
a straight-line script around four collaborators: the flag parser, the two
Maven workflows (`MvnCleanInstall().Run`, `MvnVerify().Run`) and the logger.
The collaborators are parameters of the model; every call main makes to one
of them is recorded in a trace, and a call that ends the process (`os.Exit`)
stops the trace there.
-/

namespace RunItSmokeTests

/-! ## Data -/

/-- A non-nil Go `error`; `text` is what its `Error()` method returns. -/
structure GoError where
  text : String
deriving DecidableEq, Repr

/-- One argument handed to `Run`, kept as the expression of main.go that
yields it.  The methods of the `MavenFlags` value (package workflows) are not
under src/, so their calls stay symbolic; `flag v` is the string `v` returned
by an accessor function of package flags. -/
inductive MvnArg where
  | IncludeDependencies
  | SkipDependencyAnalysis
  | SkipCheckstyle
  | SkipJib
  | SkipTests
  | SkipJacoco
  | SkipShade
  | RunIntegrationSmokeTests
  | ThreadCount (count : Int)
  | IntegrationTestParallelism (count : Int)
  | StaticBigtableInstance (instanceID : String)
  | StaticSpannerInstance (instanceID : String)
  | InternalMaven
  | flag (value : String)
deriving DecidableEq, Repr

/-- Whether an argument switches test execution on.  Of the options main.go
builds, only `RunIntegrationSmokeTests` does. -/
def MvnArg.enablesTests : MvnArg → Bool
  | .RunIntegrationSmokeTests => true
  | _ => false

/-- The values the accessor functions of package flags return once
`flag.Parse` has returned: the flag configuration as main.go sees it.  The
package is not under src/; main.go reads exactly these fourteen accessors. -/
structure Flags where
  Region : String
  Project : String
  ArtifactBucket : String
  StageBucket : String
  PrivateConnectivity : String
  SpannerHost : String
  FailureMode : String
  RetryFailures : String
  StaticOracleHost : String
  StaticOracleSysPassword : String
  CloudProxyHost : String
  CloudProxyMySqlPort : String
  CloudProxyPostgresPort : String
  CloudProxyPassword : String
deriving DecidableEq, Repr

/-- Modelled from the spec: the outcome of `flags.RegisterCommonFlags()`,
`flags.RegisterItFlags()` and `flag.Parse()` on an argument vector; neither
package flags nor the parser is under src/.  Either parsing returns and the
accessors yield `f`, or the parser rejects the arguments (an unknown or
malformed flag), which "must produce a usage error and non-zero exit".  A
help request (`-h`, `-help`) is kept apart from a rejection: the parser
prints the usage text and ends the process with status 0. -/
inductive ParseOutcome where
  | parsed (f : Flags)
  | helpRequested
  | rejected
deriving DecidableEq, Repr

/-- A call main.go makes to a collaborator, with its arguments. -/
inductive Event where
  | MvnCleanInstallRun (args : List MvnArg)
  | MvnVerifyRun (args : List MvnArg)
  | Fatalf (format : String) (err : GoError)
  | Println (msg : String)
deriving DecidableEq, Repr

/-- The collaborators of one run: what the flag parser makes of an argument
vector and what each Maven command returns for an argument list (`none` is
Go's nil error). -/
structure Env where
  parse : List String → ParseOutcome
  build : List MvnArg → Option GoError
  verify : List MvnArg → Option GoError

/-! ## Processes -/

/-- How a step ends: it returns a value, or it ends the process with an exit
status. -/
inductive Step (α : Type) where
  | ret (a : α)
  | exit (status : Nat)

/-- A process fragment: from the trace so far to the extended trace and the
way the fragment ended. -/
def Proc (α : Type) : Type := List Event → List Event × Step α

/-- Return without an effect. -/
def Proc.pure {α : Type} (a : α) : Proc α := fun t => (t, .ret a)

/-- Sequencing: the continuation runs only when the first part returned. -/
def Proc.bind {α β : Type} (m : Proc α) (k : α → Proc β) : Proc β := fun t =>
  match m t with
  | (t1, .ret a) => k a t1
  | (t1, .exit s) => (t1, .exit s)

instance : Monad Proc where
  pure := Proc.pure
  bind := Proc.bind

/-- Append one call to the trace. -/
def emit (e : Event) : Proc Unit := fun t => (t ++ [e], .ret ())

/-- End the process: `os.Exit(status)`. -/
def osExit {α : Type} (status : Nat) : Proc α := fun t => (t, .exit status)

/-- Status with which the flag parser ends the process on a rejected
argument vector (the parser's exit-on-error policy). -/
def parseErrorStatus : Nat := 2

/-- Lines 29-31: register both flag groups and parse.  Returns the flag
configuration, or the parser ends the process. -/
def flagParse (env : Env) (argv : List String) : Proc Flags :=
  match env.parse argv with
  | .parsed f => Proc.pure f
  | .helpRequested => osExit 0
  | .rejected => osExit parseErrorStatus

/-- The call `workflows.MvnCleanInstall().Run(args...)`. -/
def MvnCleanInstallRun (env : Env) (args : List MvnArg) : Proc (Option GoError) := do
  emit (.MvnCleanInstallRun args)
  return env.build args

/-- The call `workflows.MvnVerify().Run(args...)`. -/
def MvnVerifyRun (env : Env) (args : List MvnArg) : Proc (Option GoError) := do
  emit (.MvnVerifyRun args)
  return env.verify args

/-- The call `log.Fatalf(format, err)`: write the entry, then `os.Exit(1)`. -/
def logFatalf {α : Type} (format : String) (err : GoError) : Proc α := do
  emit (.Fatalf format err)
  osExit 1

/-- The call `log.Println(msg)`. -/
def logPrintln (msg : String) : Proc Unit := emit (.Println msg)

/-! ## The program -/

/-- Option list A, lines 36-44: the arguments of `MvnCleanInstall().Run`. -/
def optionListA : List MvnArg :=
  [ .IncludeDependencies,
    .SkipDependencyAnalysis,
    .SkipCheckstyle,
    .SkipJib,
    .SkipTests,
    .SkipJacoco,
    .SkipShade,
    .ThreadCount 8,
    .InternalMaven ]

/-- Option list B, lines 52-75: the arguments of `MvnVerify().Run`. -/
def optionListB (f : Flags) : List MvnArg :=
  [ .IncludeDependencies,
    .SkipDependencyAnalysis,
    .SkipCheckstyle,
    .SkipJib,
    .RunIntegrationSmokeTests,
    .ThreadCount 8,
    .IntegrationTestParallelism 4,
    .StaticBigtableInstance "teleport",
    .StaticSpannerInstance "teleport",
    .InternalMaven,
    .flag f.Region,
    .flag f.Project,
    .flag f.ArtifactBucket,
    .flag f.StageBucket,
    .flag f.PrivateConnectivity,
    .flag f.SpannerHost,
    .flag f.FailureMode,
    .flag f.RetryFailures,
    .flag f.StaticOracleHost,
    .flag f.StaticOracleSysPassword,
    .flag f.CloudProxyHost,
    .flag f.CloudProxyMySqlPort,
    .flag f.CloudProxyPostgresPort,
    .flag f.CloudProxyPassword ]

/-- The function `main` of main.go, lines 28-80. -/
def main (env : Env) (argv : List String) : Proc Unit := do
  let f ← flagParse env argv
  -- Run mvn install before running integration tests
  let err ← MvnCleanInstallRun env optionListA
  if let some e := err then
    logFatalf "%v\n" e
  -- Run integration tests
  let err ← MvnVerifyRun env (optionListB f)
  if let some e := err then
    logFatalf "%v\n" e
  logPrintln "Build Successful!"

/-- What is observed of a finished run. -/
structure Outcome where
  trace : List Event
  exitStatus : Nat
deriving DecidableEq, Repr

/-- Run `main` as a process: empty trace at the start; returning from `main`
ends the process with status 0. -/
def runMain (env : Env) (argv : List String) : Outcome :=
  match main env argv [] with
  | (t, .ret _) => ⟨t, 0⟩
  | (t, .exit s) => ⟨t, s⟩

/-! ## Observations on a trace -/

/-- The success entry written at line 79. -/
def successEntry : Event := .Println "Build Successful!"

/-- An invocation of the build command. -/
def Event.isBuild : Event → Bool
  | .MvnCleanInstallRun _ => true
  | _ => false

/-- An invocation of the verify command. -/
def Event.isVerify : Event → Bool
  | .MvnVerifyRun _ => true
  | _ => false

/-- An entry written to the log. -/
def Event.isLog : Event → Bool
  | .Fatalf _ _ => true
  | .Println _ => true
  | _ => false

/-- An error entry written to the log. -/
def Event.isErrorLog : Event → Bool
  | .Fatalf _ _ => true
  | _ => false

/-! ## Sample collaborators -/

/-- A flag configuration for concrete runs. -/
def sampleFlags : Flags :=
  { Region := "-Dregion=us-central1",
    Project := "-Dproject=smoke",
    ArtifactBucket := "-DartifactBucket=gs://artifacts",
    StageBucket := "-DstageBucket=gs://stage",
    PrivateConnectivity := "-DprivateConnectivity=conn",
    SpannerHost := "-DspannerHost=https://spanner.example",
    FailureMode := "-ff",
    RetryFailures := "-Dsurefire.rerunFailingTestsCount=2",
    StaticOracleHost := "-DstaticOracleHost=10.0.0.1",
    StaticOracleSysPassword := "-DstaticOracleSysPassword=pw",
    CloudProxyHost := "-DcloudProxyHost=10.0.0.2",
    CloudProxyMySqlPort := "-DcloudProxyMySqlPort=3306",
    CloudProxyPostgresPort := "-DcloudProxyPostgresPort=5432",
    CloudProxyPassword := "-DcloudProxyPassword=pw" }

/-- A parser for concrete runs: the empty argument vector parses to
`sampleFlags`, `-h` and `-help` ask for help, everything else is rejected. -/
def sampleParse : List String → ParseOutcome
  | [] => .parsed sampleFlags
  | ["-h"] => .helpRequested
  | ["-help"] => .helpRequested
  | _ => .rejected

/-- Both commands succeed. -/
def envOk : Env := ⟨sampleParse, fun _ => none, fun _ => none⟩

/-- The build command fails. -/
def envBuildFails : Env := ⟨sampleParse, fun _ => some ⟨"mvn clean install: exit status 1"⟩, fun _ => none⟩

/-- The build command succeeds and the verify command fails. -/
def envVerifyFails : Env := ⟨sampleParse, fun _ => none, fun _ => some ⟨"mvn verify: exit status 1"⟩⟩

/-! ## The five runs of main -/

/-- A rejected argument vector: the parser ends the process, nothing was
called. -/
theorem runMain_of_rejected (env : Env) (argv : List String)
    (hp : env.parse argv = .rejected) :
    runMain env argv = ⟨[], parseErrorStatus⟩ := by
  simp [runMain, main, flagParse, hp, osExit, Bind.bind, Proc.bind]

/-- A help request: the parser ends the process with status 0, nothing was
called. -/
theorem runMain_of_help (env : Env) (argv : List String)
    (hp : env.parse argv = .helpRequested) :
    runMain env argv = ⟨[], 0⟩ := by
  simp [runMain, main, flagParse, hp, osExit, Bind.bind, Proc.bind]

/-- The build command returns an error. -/
theorem runMain_of_build_error (env : Env) (argv : List String) (f : Flags) (e : GoError)
    (hp : env.parse argv = .parsed f) (hb : env.build optionListA = some e) :
    runMain env argv = ⟨[.MvnCleanInstallRun optionListA, .Fatalf "%v\n" e], 1⟩ := by
  simp [runMain, main, flagParse, hp, hb, MvnCleanInstallRun, logFatalf, emit, osExit,
    Bind.bind, Proc.bind, Pure.pure, Proc.pure]

/-- The build command succeeds and the verify command returns an error. -/
theorem runMain_of_verify_error (env : Env) (argv : List String) (f : Flags) (e : GoError)
    (hp : env.parse argv = .parsed f) (hb : env.build optionListA = none)
    (hv : env.verify (optionListB f) = some e) :
    runMain env argv =
      ⟨[.MvnCleanInstallRun optionListA, .MvnVerifyRun (optionListB f), .Fatalf "%v\n" e], 1⟩ := by
  simp [runMain, main, flagParse, hp, hb, hv, MvnCleanInstallRun, MvnVerifyRun, logFatalf,
    emit, osExit, Bind.bind, Proc.bind, Pure.pure, Proc.pure]

/-- Both commands succeed. -/
theorem runMain_of_success (env : Env) (argv : List String) (f : Flags)
    (hp : env.parse argv = .parsed f) (hb : env.build optionListA = none)
    (hv : env.verify (optionListB f) = none) :
    runMain env argv =
      ⟨[.MvnCleanInstallRun optionListA, .MvnVerifyRun (optionListB f),
        .Println "Build Successful!"], 0⟩ := by
  simp [runMain, main, flagParse, hp, hb, hv, MvnCleanInstallRun, MvnVerifyRun, logPrintln,
    emit, Bind.bind, Proc.bind, Pure.pure, Proc.pure]

/-- A run whose flags parse is one of three: build error, verify error,
success. -/
theorem runMain_cases (env : Env) (argv : List String) (f : Flags)
    (hp : env.parse argv = .parsed f) :
    (∃ e, env.build optionListA = some e ∧
        runMain env argv = ⟨[.MvnCleanInstallRun optionListA, .Fatalf "%v\n" e], 1⟩) ∨
    (∃ e, env.build optionListA = none ∧ env.verify (optionListB f) = some e ∧
        runMain env argv =
          ⟨[.MvnCleanInstallRun optionListA, .MvnVerifyRun (optionListB f),
            .Fatalf "%v\n" e], 1⟩) ∨
    (env.build optionListA = none ∧ env.verify (optionListB f) = none ∧
        runMain env argv =
          ⟨[.MvnCleanInstallRun optionListA, .MvnVerifyRun (optionListB f),
            .Println "Build Successful!"], 0⟩) := by
  cases hb : env.build optionListA with
  | some e => exact Or.inl ⟨e, rfl, runMain_of_build_error env argv f e hp hb⟩
  | none =>
    cases hv : env.verify (optionListB f) with
    | some e => exact Or.inr (Or.inl ⟨e, rfl, rfl, runMain_of_verify_error env argv f e hp hb hv⟩)
    | none => exact Or.inr (Or.inr ⟨rfl, rfl, runMain_of_success env argv f hp hb hv⟩)

/-- Every build invocation in a trace carries option list A. -/
theorem build_args_eq (env : Env) (argv : List String) (args : List MvnArg)
    (h : Event.MvnCleanInstallRun args ∈ (runMain env argv).trace) :
    args = optionListA := by
  cases hp : env.parse argv with
  | rejected => rw [runMain_of_rejected env argv hp] at h; simp at h
  | helpRequested => rw [runMain_of_help env argv hp] at h; simp at h
  | parsed f =>
    rcases runMain_cases env argv f hp with ⟨e, _, hr⟩ | ⟨e, _, _, hr⟩ | ⟨_, _, hr⟩ <;>
      (rw [hr] at h; simpa using h)

/-- Every verify invocation in a trace carries option list B of the parsed
flag configuration. -/
theorem verify_args_eq (env : Env) (argv : List String) (args : List MvnArg)
    (h : Event.MvnVerifyRun args ∈ (runMain env argv).trace) :
    ∃ f, env.parse argv = .parsed f ∧ args = optionListB f := by
  cases hp : env.parse argv with
  | rejected => rw [runMain_of_rejected env argv hp] at h; simp at h
  | helpRequested => rw [runMain_of_help env argv hp] at h; simp at h
  | parsed f =>
    refine ⟨f, rfl, ?_⟩
    rcases runMain_cases env argv f hp with ⟨e, _, hr⟩ | ⟨e, _, _, hr⟩ | ⟨_, _, hr⟩ <;>
      (rw [hr] at h; simp at h <;> exact h)

/-! ## The claims -/

/-- C1: when the flags parse and both the build command and the verify
command return no error, the log of the run holds exactly the entry
"Build Successful!" and the process exits with status 0. -/
theorem success_logs_and_exits_zero (env : Env) (argv : List String) (f : Flags)
    (hp : env.parse argv = .parsed f)
    (hb : env.build optionListA = none)
    (hv : env.verify (optionListB f) = none) :
    (runMain env argv).trace.filter Event.isLog = [Event.Println "Build Successful!"] ∧
    (runMain env argv).exitStatus = 0 := by
  rw [runMain_of_success env argv f hp hb hv]
  exact ⟨rfl, rfl⟩

/-- Witness of C1: the run of `envOk` on the empty argument vector. -/
theorem success_logs_and_exits_zero_witness :
    envOk.parse [] = .parsed sampleFlags ∧
    envOk.build optionListA = none ∧
    envOk.verify (optionListB sampleFlags) = none ∧
    (runMain envOk []).trace.filter Event.isLog = [Event.Println "Build Successful!"] ∧
    (runMain envOk []).exitStatus = 0 :=
  ⟨rfl, rfl, rfl, success_logs_and_exits_zero envOk [] sampleFlags rfl rfl rfl⟩

/-- C2: when the build command returns the error e, the verify command is
never invoked, the entry for e is written to the log, and the process ends
with a non-zero exit status. -/
theorem build_error_is_fatal (env : Env) (argv : List String) (f : Flags) (e : GoError)
    (hp : env.parse argv = .parsed f)
    (hb : env.build optionListA = some e) :
    (∀ args, Event.MvnVerifyRun args ∉ (runMain env argv).trace) ∧
    Event.Fatalf "%v\n" e ∈ (runMain env argv).trace ∧
    (runMain env argv).exitStatus ≠ 0 := by
  rw [runMain_of_build_error env argv f e hp hb]
  simp

/-- Witness of C2: the run of `envBuildFails` on the empty argument vector. -/
theorem build_error_is_fatal_witness :
    envBuildFails.parse [] = .parsed sampleFlags ∧
    envBuildFails.build optionListA = some ⟨"mvn clean install: exit status 1"⟩ ∧
    (∀ args, Event.MvnVerifyRun args ∉ (runMain envBuildFails []).trace) ∧
    Event.Fatalf "%v\n" ⟨"mvn clean install: exit status 1"⟩ ∈ (runMain envBuildFails []).trace ∧
    (runMain envBuildFails []).exitStatus ≠ 0 :=
  ⟨rfl, rfl, build_error_is_fatal envBuildFails [] sampleFlags _ rfl rfl⟩

/-- C3: when the build command returns no error and the verify command
returns the error e, the entry for e is written to the log, the process ends
with a non-zero exit status, and the success message is not logged. -/
theorem verify_error_is_fatal (env : Env) (argv : List String) (f : Flags) (e : GoError)
    (hp : env.parse argv = .parsed f)
    (hb : env.build optionListA = none)
    (hv : env.verify (optionListB f) = some e) :
    Event.Fatalf "%v\n" e ∈ (runMain env argv).trace ∧
    (runMain env argv).exitStatus ≠ 0 ∧
    Event.Println "Build Successful!" ∉ (runMain env argv).trace := by
  rw [runMain_of_verify_error env argv f e hp hb hv]
  simp

/-- Witness of C3: the run of `envVerifyFails` on the empty argument vector. -/
theorem verify_error_is_fatal_witness :
    envVerifyFails.parse [] = .parsed sampleFlags ∧
    envVerifyFails.build optionListA = none ∧
    envVerifyFails.verify (optionListB sampleFlags) = some ⟨"mvn verify: exit status 1"⟩ ∧
    Event.Fatalf "%v\n" ⟨"mvn verify: exit status 1"⟩ ∈ (runMain envVerifyFails []).trace ∧
    (runMain envVerifyFails []).exitStatus ≠ 0 ∧
    Event.Println "Build Successful!" ∉ (runMain envVerifyFails []).trace :=
  ⟨rfl, rfl, rfl, verify_error_is_fatal envVerifyFails [] sampleFlags _ rfl rfl rfl⟩

/-- C4, as stated, fails: on a rejected argument vector the process ends in
the flag parser with status 2 and the build command is invoked zero times,
not exactly once. -/
theorem build_once_in_every_run_counterexample :
    envOk.parse ["-no-such-flag"] = .rejected ∧
    runMain envOk ["-no-such-flag"] = ⟨[], 2⟩ ∧
    ((runMain envOk ["-no-such-flag"]).trace.filter Event.isBuild).length ≠ 1 := by
  decide

/-- C4, amended: in every run of main whose flags parse, whatever the two
commands return, the build command is invoked exactly once, as the first
call of the run and so before any verify invocation; the verify command is
invoked exactly once when the build returned no error and not at all when it
returned an error. -/
theorem invocations_when_flags_parse (env : Env) (argv : List String) (f : Flags)
    (hp : env.parse argv = .parsed f) :
    ((runMain env argv).trace.filter Event.isBuild).length = 1 ∧
    (∃ rest, (runMain env argv).trace = Event.MvnCleanInstallRun optionListA :: rest ∧
        ∀ x ∈ rest, x.isBuild = false) ∧
    (env.build optionListA = none →
        (runMain env argv).trace.filter Event.isVerify = [Event.MvnVerifyRun (optionListB f)]) ∧
    (∀ e, env.build optionListA = some e →
        (runMain env argv).trace.filter Event.isVerify = []) ∧
    ((runMain env argv).trace.filter Event.isVerify).length ≤ 1 := by
  rcases runMain_cases env argv f hp with ⟨e, hb, hr⟩ | ⟨e, hb, _, hr⟩ | ⟨hb, _, hr⟩ <;>
    (rw [hr, hb]; simp [List.filter, Event.isBuild, Event.isVerify])

/-- Witness of amended C4: the run of `envVerifyFails` on the empty argument
vector. -/
theorem invocations_when_flags_parse_witness :
    envVerifyFails.parse [] = .parsed sampleFlags ∧
    ((runMain envVerifyFails []).trace.filter Event.isBuild).length = 1 ∧
    (∃ rest, (runMain envVerifyFails []).trace = Event.MvnCleanInstallRun optionListA :: rest ∧
        ∀ x ∈ rest, x.isBuild = false) ∧
    (envVerifyFails.build optionListA = none →
        (runMain envVerifyFails []).trace.filter Event.isVerify =
          [Event.MvnVerifyRun (optionListB sampleFlags)]) ∧
    (∀ e, envVerifyFails.build optionListA = some e →
        (runMain envVerifyFails []).trace.filter Event.isVerify = []) ∧
    ((runMain envVerifyFails []).trace.filter Event.isVerify).length ≤ 1 :=
  ⟨rfl, invocations_when_flags_parse envVerifyFails [] sampleFlags rfl⟩

/-- C5: whatever the collaborators and the argument vector, the arguments of
every build invocation contain `ThreadCount(8)` and `SkipTests()`, do not
contain `RunIntegrationSmokeTests()`, and contain no option that enables test
execution. -/
theorem build_args_threads_and_no_tests (env : Env) (argv : List String) (args : List MvnArg)
    (h : Event.MvnCleanInstallRun args ∈ (runMain env argv).trace) :
    MvnArg.ThreadCount 8 ∈ args ∧
    MvnArg.SkipTests ∈ args ∧
    MvnArg.RunIntegrationSmokeTests ∉ args ∧
    ∀ a ∈ args, a.enablesTests = false := by
  rw [build_args_eq env argv args h]
  decide

/-- Witness of C5: the build invocation in the run of `envOk`. -/
theorem build_args_threads_and_no_tests_witness :
    Event.MvnCleanInstallRun optionListA ∈ (runMain envOk []).trace ∧
    MvnArg.ThreadCount 8 ∈ optionListA ∧
    MvnArg.SkipTests ∈ optionListA ∧
    MvnArg.RunIntegrationSmokeTests ∉ optionListA ∧
    ∀ a ∈ optionListA, a.enablesTests = false :=
  ⟨by decide, build_args_threads_and_no_tests envOk [] optionListA (by decide)⟩

/-- C6: whatever the collaborators and the argument vector, the arguments of
every verify invocation contain `IntegrationTestParallelism(4)`,
`StaticBigtableInstance("teleport")` and `StaticSpannerInstance("teleport")`. -/
theorem verify_args_parallelism_and_instances (env : Env) (argv : List String)
    (args : List MvnArg)
    (h : Event.MvnVerifyRun args ∈ (runMain env argv).trace) :
    MvnArg.IntegrationTestParallelism 4 ∈ args ∧
    MvnArg.StaticBigtableInstance "teleport" ∈ args ∧
    MvnArg.StaticSpannerInstance "teleport" ∈ args := by
  obtain ⟨f, _, rfl⟩ := verify_args_eq env argv args h
  simp [optionListB]

/-- Witness of C6: the verify invocation in the run of `envOk`. -/
theorem verify_args_parallelism_and_instances_witness :
    Event.MvnVerifyRun (optionListB sampleFlags) ∈ (runMain envOk []).trace ∧
    MvnArg.IntegrationTestParallelism 4 ∈ optionListB sampleFlags ∧
    MvnArg.StaticBigtableInstance "teleport" ∈ optionListB sampleFlags ∧
    MvnArg.StaticSpannerInstance "teleport" ∈ optionListB sampleFlags :=
  ⟨by decide,
    verify_args_parallelism_and_instances envOk [] (optionListB sampleFlags) (by decide)⟩

/-- C7: the arguments of every build invocation are exactly the nine options
IncludeDependencies, SkipDependencyAnalysis, SkipCheckstyle, SkipJib,
SkipTests, SkipJacoco, SkipShade, ThreadCount(8), InternalMaven, in this
order; none of them is a value forwarded from package flags. -/
theorem build_args_exact (env : Env) (argv : List String) (args : List MvnArg)
    (h : Event.MvnCleanInstallRun args ∈ (runMain env argv).trace) :
    args = [MvnArg.IncludeDependencies, MvnArg.SkipDependencyAnalysis, MvnArg.SkipCheckstyle,
      MvnArg.SkipJib, MvnArg.SkipTests, MvnArg.SkipJacoco, MvnArg.SkipShade,
      MvnArg.ThreadCount 8, MvnArg.InternalMaven] ∧
    args.length = 9 ∧
    ∀ v, MvnArg.flag v ∉ args := by
  rw [build_args_eq env argv args h]
  simp [optionListA]

/-- Witness of C7: the build invocation in the run of `envBuildFails`. -/
theorem build_args_exact_witness :
    Event.MvnCleanInstallRun optionListA ∈ (runMain envBuildFails []).trace ∧
    optionListA = [MvnArg.IncludeDependencies, MvnArg.SkipDependencyAnalysis,
      MvnArg.SkipCheckstyle, MvnArg.SkipJib, MvnArg.SkipTests, MvnArg.SkipJacoco,
      MvnArg.SkipShade, MvnArg.ThreadCount 8, MvnArg.InternalMaven] ∧
    optionListA.length = 9 ∧
    ∀ v, MvnArg.flag v ∉ optionListA :=
  ⟨by decide, build_args_exact envBuildFails [] optionListA (by decide)⟩

/-- C8: the arguments of every verify invocation are exactly 24 options in
order: the ten constants IncludeDependencies, SkipDependencyAnalysis,
SkipCheckstyle, SkipJib, RunIntegrationSmokeTests, ThreadCount(8),
IntegrationTestParallelism(4), StaticBigtableInstance("teleport"),
StaticSpannerInstance("teleport"), InternalMaven, then the values of the
fourteen accessors Region, Project, ArtifactBucket, StageBucket,
PrivateConnectivity, SpannerHost, FailureMode, RetryFailures,
StaticOracleHost, StaticOracleSysPassword, CloudProxyHost,
CloudProxyMySqlPort, CloudProxyPostgresPort, CloudProxyPassword, each entry
being the value its accessor returns; replacing the value of one accessor
replaces its own entry and leaves the other 23 as they are. -/
theorem verify_args_exact (env : Env) (argv : List String) (args : List MvnArg)
    (h : Event.MvnVerifyRun args ∈ (runMain env argv).trace) :
    ∃ f, env.parse argv = .parsed f ∧
      args = [MvnArg.IncludeDependencies,
        MvnArg.SkipDependencyAnalysis,
        MvnArg.SkipCheckstyle,
        MvnArg.SkipJib,
        MvnArg.RunIntegrationSmokeTests,
        MvnArg.ThreadCount 8,
        MvnArg.IntegrationTestParallelism 4,
        MvnArg.StaticBigtableInstance "teleport",
        MvnArg.StaticSpannerInstance "teleport",
        MvnArg.InternalMaven,
        MvnArg.flag f.Region,
        MvnArg.flag f.Project,
        MvnArg.flag f.ArtifactBucket,
        MvnArg.flag f.StageBucket,
        MvnArg.flag f.PrivateConnectivity,
        MvnArg.flag f.SpannerHost,
        MvnArg.flag f.FailureMode,
        MvnArg.flag f.RetryFailures,
        MvnArg.flag f.StaticOracleHost,
        MvnArg.flag f.StaticOracleSysPassword,
        MvnArg.flag f.CloudProxyHost,
        MvnArg.flag f.CloudProxyMySqlPort,
        MvnArg.flag f.CloudProxyPostgresPort,
        MvnArg.flag f.CloudProxyPassword] ∧
      args.length = 24 ∧
      (∀ v, optionListB { f with Region := v } = args.set 10 (MvnArg.flag v)) ∧
      (∀ v, optionListB { f with Project := v } = args.set 11 (MvnArg.flag v)) ∧
      (∀ v, optionListB { f with ArtifactBucket := v } = args.set 12 (MvnArg.flag v)) ∧
      (∀ v, optionListB { f with StageBucket := v } = args.set 13 (MvnArg.flag v)) ∧
      (∀ v, optionListB { f with PrivateConnectivity := v } = args.set 14 (MvnArg.flag v)) ∧
      (∀ v, optionListB { f with SpannerHost := v } = args.set 15 (MvnArg.flag v)) ∧
      (∀ v, optionListB { f with FailureMode := v } = args.set 16 (MvnArg.flag v)) ∧
      (∀ v, optionListB { f with RetryFailures := v } = args.set 17 (MvnArg.flag v)) ∧
      (∀ v, optionListB { f with StaticOracleHost := v } = args.set 18 (MvnArg.flag v)) ∧
      (∀ v, optionListB { f with StaticOracleSysPassword := v } = args.set 19 (MvnArg.flag v)) ∧
      (∀ v, optionListB { f with CloudProxyHost := v } = args.set 20 (MvnArg.flag v)) ∧
      (∀ v, optionListB { f with CloudProxyMySqlPort := v } = args.set 21 (MvnArg.flag v)) ∧
      (∀ v, optionListB { f with CloudProxyPostgresPort := v } = args.set 22 (MvnArg.flag v)) ∧
      (∀ v, optionListB { f with CloudProxyPassword := v } = args.set 23 (MvnArg.flag v)) := by
  obtain ⟨f, hp, rfl⟩ := verify_args_eq env argv args h
  refine ⟨f, hp, rfl, rfl, ?_⟩
  simp [optionListB]

/-- Witness of C8: the verify invocation in the run of `envVerifyFails`. -/
theorem verify_args_exact_witness :
    Event.MvnVerifyRun (optionListB sampleFlags) ∈ (runMain envVerifyFails []).trace ∧
    ∃ f, envVerifyFails.parse [] = .parsed f ∧
      optionListB sampleFlags = [MvnArg.IncludeDependencies,
        MvnArg.SkipDependencyAnalysis,
        MvnArg.SkipCheckstyle,
        MvnArg.SkipJib,
        MvnArg.RunIntegrationSmokeTests,
        MvnArg.ThreadCount 8,
        MvnArg.IntegrationTestParallelism 4,
        MvnArg.StaticBigtableInstance "teleport",
        MvnArg.StaticSpannerInstance "teleport",
        MvnArg.InternalMaven,
        MvnArg.flag f.Region,
        MvnArg.flag f.Project,
        MvnArg.flag f.ArtifactBucket,
        MvnArg.flag f.StageBucket,
        MvnArg.flag f.PrivateConnectivity,
        MvnArg.flag f.SpannerHost,
        MvnArg.flag f.FailureMode,
        MvnArg.flag f.RetryFailures,
        MvnArg.flag f.StaticOracleHost,
        MvnArg.flag f.StaticOracleSysPassword,
        MvnArg.flag f.CloudProxyHost,
        MvnArg.flag f.CloudProxyMySqlPort,
        MvnArg.flag f.CloudProxyPostgresPort,
        MvnArg.flag f.CloudProxyPassword] ∧
      (optionListB sampleFlags).length = 24 ∧
      (∀ v, optionListB { f with Region := v } = (optionListB sampleFlags).set 10 (MvnArg.flag v)) ∧
      (∀ v, optionListB { f with Project := v } = (optionListB sampleFlags).set 11 (MvnArg.flag v)) ∧
      (∀ v, optionListB { f with ArtifactBucket := v } = (optionListB sampleFlags).set 12 (MvnArg.flag v)) ∧
      (∀ v, optionListB { f with StageBucket := v } = (optionListB sampleFlags).set 13 (MvnArg.flag v)) ∧
      (∀ v, optionListB { f with PrivateConnectivity := v } = (optionListB sampleFlags).set 14 (MvnArg.flag v)) ∧
      (∀ v, optionListB { f with SpannerHost := v } = (optionListB sampleFlags).set 15 (MvnArg.flag v)) ∧
      (∀ v, optionListB { f with FailureMode := v } = (optionListB sampleFlags).set 16 (MvnArg.flag v)) ∧
      (∀ v, optionListB { f with RetryFailures := v } = (optionListB sampleFlags).set 17 (MvnArg.flag v)) ∧
      (∀ v, optionListB { f with StaticOracleHost := v } = (optionListB sampleFlags).set 18 (MvnArg.flag v)) ∧
      (∀ v, optionListB { f with StaticOracleSysPassword := v } = (optionListB sampleFlags).set 19 (MvnArg.flag v)) ∧
      (∀ v, optionListB { f with CloudProxyHost := v } = (optionListB sampleFlags).set 20 (MvnArg.flag v)) ∧
      (∀ v, optionListB { f with CloudProxyMySqlPort := v } = (optionListB sampleFlags).set 21 (MvnArg.flag v)) ∧
      (∀ v, optionListB { f with CloudProxyPostgresPort := v } = (optionListB sampleFlags).set 22 (MvnArg.flag v)) ∧
      (∀ v, optionListB { f with CloudProxyPassword := v } = (optionListB sampleFlags).set 23 (MvnArg.flag v)) :=
  ⟨by decide, verify_args_exact envVerifyFails [] (optionListB sampleFlags) (by decide)⟩

/-- C9: when the flag parser rejects the argument vector, the process ends
with a non-zero exit status and neither the build command nor the verify
command is invoked. -/
theorem rejected_flags_exit_before_commands (env : Env) (argv : List String)
    (hp : env.parse argv = .rejected) :
    (runMain env argv).exitStatus ≠ 0 ∧
    (∀ args, Event.MvnCleanInstallRun args ∉ (runMain env argv).trace) ∧
    (∀ args, Event.MvnVerifyRun args ∉ (runMain env argv).trace) := by
  rw [runMain_of_rejected env argv hp]
  simp [parseErrorStatus]

/-- Witness of C9: the run of `envOk` on an unknown flag. -/
theorem rejected_flags_exit_before_commands_witness :
    envOk.parse ["-unknown-flag"] = .rejected ∧
    (runMain envOk ["-unknown-flag"]).exitStatus ≠ 0 ∧
    (∀ args, Event.MvnCleanInstallRun args ∉ (runMain envOk ["-unknown-flag"]).trace) ∧
    (∀ args, Event.MvnVerifyRun args ∉ (runMain envOk ["-unknown-flag"]).trace) :=
  ⟨by decide, rejected_flags_exit_before_commands envOk ["-unknown-flag"] (by decide)⟩

/-- C10: in a run whose flags parse, exit status 0, the presence of the entry
"Build Successful!" in the log, and both commands returning no error are
equivalent; a run that logs an error does not log the success message; and a
failing run logs exactly one error, that of the first command that failed. -/
theorem success_iff_no_error (env : Env) (argv : List String) (f : Flags)
    (hp : env.parse argv = .parsed f) :
    ((runMain env argv).exitStatus = 0 ↔
        Event.Println "Build Successful!" ∈ (runMain env argv).trace) ∧
    (Event.Println "Build Successful!" ∈ (runMain env argv).trace ↔
        (env.build optionListA = none ∧ env.verify (optionListB f) = none)) ∧
    (∀ fmt e, Event.Fatalf fmt e ∈ (runMain env argv).trace →
        Event.Println "Build Successful!" ∉ (runMain env argv).trace) ∧
    ((runMain env argv).exitStatus ≠ 0 →
        ∃ e, (runMain env argv).trace.filter Event.isErrorLog = [Event.Fatalf "%v\n" e] ∧
          (env.build optionListA = some e ∨
            (env.build optionListA = none ∧ env.verify (optionListB f) = some e))) := by
  rcases runMain_cases env argv f hp with ⟨e, hb, hr⟩ | ⟨e, hb, hv, hr⟩ | ⟨hb, hv, hr⟩
  · rw [hr, hb]; simp [List.filter, Event.isErrorLog]
  · rw [hr, hb, hv]; simp [List.filter, Event.isErrorLog]
  · rw [hr, hb, hv]; simp

/-- Witness of C10: the run of `envBuildFails` on the empty argument vector. -/
theorem success_iff_no_error_witness :
    envBuildFails.parse [] = .parsed sampleFlags ∧
    ((runMain envBuildFails []).exitStatus = 0 ↔
        Event.Println "Build Successful!" ∈ (runMain envBuildFails []).trace) ∧
    (Event.Println "Build Successful!" ∈ (runMain envBuildFails []).trace ↔
        (envBuildFails.build optionListA = none ∧
          envBuildFails.verify (optionListB sampleFlags) = none)) ∧
    (∀ fmt e, Event.Fatalf fmt e ∈ (runMain envBuildFails []).trace →
        Event.Println "Build Successful!" ∉ (runMain envBuildFails []).trace) ∧
    ((runMain envBuildFails []).exitStatus ≠ 0 →
        ∃ e, (runMain envBuildFails []).trace.filter Event.isErrorLog =
            [Event.Fatalf "%v\n" e] ∧
          (envBuildFails.build optionListA = some e ∨
            (envBuildFails.build optionListA = none ∧
              envBuildFails.verify (optionListB sampleFlags) = some e))) :=
  ⟨rfl, success_iff_no_error envBuildFails [] sampleFlags rfl⟩

end RunItSmokeTests
